import Mathlib

/-!
Verification development for the erex library: a registry of emoji-reaction
"button" handlers attached to chat messages (src/reaction_buttons/index.ts),
a debounced pagination controller built on top of it (the PageController /
Debouncer module), and the retry helper (src/util/retry_promise.ts).

Embedding conventions: JS objects used as dictionaries become association
lists; async control flow becomes explicit state passing; setTimeout becomes
an explicit world of scheduled timer handles; the eris network transport
becomes an outcome-valued capability (each network call's per-attempt outcome
is a parameter); handler functions become opaque string tags.  A JS value
that "yields no content" (undefined / empty) is modelled as none.
-/

namespace Erex

/-- Lookup in a JS-object-style dictionary embedded as an association list
(o[k], giving undefined when the key is absent). -/
def lookupD {α β : Type} [BEq α] (l : List (α × β)) (k : α) : Option β :=
  (l.find? (fun p => p.1 == k)).map (fun p => p.2)

/-- Dictionary after the JS delete operator: every entry for the key removed. -/
def eraseD {α β : Type} [BEq α] (l : List (α × β)) (k : α) : List (α × β) :=
  l.filter (fun p => !(p.1 == k))

/-- Dictionary after the JS assignment o[k] = v. -/
def insertD {α β : Type} [BEq α] (l : List (α × β)) (k : α) (v : β) : List (α × β) :=
  (k, v) :: eraseD l k

theorem lookupD_insertD_self {α β : Type} [BEq α] [LawfulBEq α]
    (l : List (α × β)) (k : α) (v : β) : lookupD (insertD l k v) k = some v := by
  simp [lookupD, insertD]

theorem lookupD_eraseD_self {α β : Type} [BEq α] [LawfulBEq α]
    (l : List (α × β)) (k : α) : lookupD (eraseD l k) k = none := by
  induction l with
  | nil => rfl
  | cons p t ih =>
    by_cases h : p.1 == k
    · simp only [eraseD, List.filter, h, Bool.not_true]
      exact ih
    · simp [eraseD, lookupD, List.find?, h]

/-- Model of the JS test err.name.startsWith(p) used by the retry helper. -/
def nameStartsWith (s p : String) : Bool :=
  List.isPrefixOf p.data s.data

def discordRESTError : String := "DiscordRESTError"

/-- Loop body of src/util/retry_promise.ts: attempt i of at most rem further
attempts; last is retries - 1.  An error whose name starts with
DiscordRESTError, or an error on the final attempt, is rethrown; running out
of attempts without returning gives undefined (modelled none). -/
def retryGo (func : Nat → Except String Unit) (last : Nat) : Nat → Nat → Except String (Option Unit)
  | _, 0 => Except.ok none
  | i, rem + 1 =>
    match func i with
    | Except.ok _ => Except.ok (some ())
    | Except.error e =>
      if nameStartsWith e discordRESTError || i == last then Except.error e
      else retryGo func last (i + 1) rem

/-- src/util/retry_promise.ts default export: func is the per-attempt outcome
of the wrapped operation. -/
def retryPromise (func : Nat → Except String Unit) (retries : Nat) : Except String (Option Unit) :=
  retryGo func (retries - 1) 0 retries

/-- State of the pagination module's Debouncer.  Promises are numbered by
nextId; funcCalls counts invocations of the wrapped operation _func; settled
lists the promise ids that have been fulfilled (the wrapped operation is
assumed to resolve, so the leading call's own promise settles at once). -/
structure Debouncer where
  debouncePromise : Option Nat
  pending : Bool
  nextId : Nat
  funcCalls : Nat
  settled : List Nat
deriving DecidableEq, Repr

/-- Debouncer.exec: if a quiet window is open, mark pending and hand the
caller the open window's promise; otherwise invoke _func (the leading call,
whose promise is handed to the caller) and open a window promise. -/
def Debouncer.exec (d : Debouncer) : Debouncer × Nat :=
  match d.debouncePromise with
  | some p => ({ d with pending := true }, p)
  | none =>
    ({ debouncePromise := some (d.nextId + 1), pending := d.pending, nextId := d.nextId + 2,
       funcCalls := d.funcCalls + 1, settled := d.nextId :: d.settled }, d.nextId)

/-- The setTimeout callback closing the quiet window: fulfill the window's
promise (with a trailing _func() invocation exactly when pending), then clear
the window and the pending flag. -/
def Debouncer.windowElapse (d : Debouncer) : Debouncer :=
  match d.debouncePromise with
  | none => d
  | some p =>
    { debouncePromise := none, pending := false, nextId := d.nextId,
      funcCalls := d.funcCalls + (if d.pending then 1 else 0), settled := p :: d.settled }

/-- A burst of n exec() calls with no intervening quiet-window expiry,
returning the final state and the promise ids handed to the n callers in
order. -/
def Debouncer.burst : Nat → Debouncer → Debouncer × List Nat
  | 0, d => (d, [])
  | n + 1, d =>
    ((Debouncer.burst n d.exec.1).1, d.exec.2 :: (Debouncer.burst n d.exec.1).2)

theorem Debouncer.burst_open (n : Nat) (d : Debouncer) (w : Nat)
    (h : d.debouncePromise = some w) :
    (Debouncer.burst n d).1 = { d with pending := if n = 0 then d.pending else true }
    ∧ (Debouncer.burst n d).2 = List.replicate n w := by
  induction n generalizing d with
  | zero => simp [Debouncer.burst]
  | succ n ih =>
    have he : d.exec = ({ d with pending := true }, w) := by
      simp [Debouncer.exec, h]
    obtain ⟨h1, h2⟩ := ih { d with pending := true } h
    refine ⟨?_, ?_⟩
    · simp only [Debouncer.burst, he, h1]
      by_cases hn : n = 0 <;> simp [hn]
    · simp [Debouncer.burst, he, h2, List.replicate]

/-- C2: for a Debouncer with no window open and a burst of n >= 1 exec()
calls inside one quiet window, the wrapped operation runs exactly once at the
leading edge during the burst; after the window elapses it has run at most
once more (twice total only when n >= 2, never more than 2); every caller
after the first received the very same window promise (and started no new
operation); and after the window elapses every promise handed to a caller
has settled. -/
theorem debouncer_burst_coalesce (n : Nat) (d0 : Debouncer)
    (hw : d0.debouncePromise = none) (hp : d0.pending = false) (hn : 1 ≤ n) :
    (Debouncer.burst n d0).1.funcCalls = d0.funcCalls + 1
    ∧ (Debouncer.burst n d0).1.windowElapse.funcCalls
        = d0.funcCalls + (if 2 ≤ n then 2 else 1)
    ∧ (Debouncer.burst n d0).1.windowElapse.funcCalls ≤ d0.funcCalls + 2
    ∧ (Debouncer.burst n d0).2 = d0.nextId :: List.replicate (n - 1) (d0.nextId + 1)
    ∧ (∀ r ∈ (Debouncer.burst n d0).2, r ∈ (Debouncer.burst n d0).1.windowElapse.settled) := by
  obtain ⟨m, rfl⟩ : ∃ m, n = m + 1 := ⟨n - 1, by omega⟩
  have he : d0.exec
      = (⟨some (d0.nextId + 1), false, d0.nextId + 2, d0.funcCalls + 1,
          d0.nextId :: d0.settled⟩, d0.nextId) := by
    simp [Debouncer.exec, hw, hp]
  obtain ⟨h1, h2⟩ := Debouncer.burst_open m
    ⟨some (d0.nextId + 1), false, d0.nextId + 2, d0.funcCalls + 1, d0.nextId :: d0.settled⟩
    (d0.nextId + 1) rfl
  have h1x : (Debouncer.burst m
      ⟨some (d0.nextId + 1), false, d0.nextId + 2, d0.funcCalls + 1, d0.nextId :: d0.settled⟩).1
      = ⟨some (d0.nextId + 1), (if m = 0 then false else true), d0.nextId + 2,
          d0.funcCalls + 1, d0.nextId :: d0.settled⟩ := h1
  have hb : Debouncer.burst (m + 1) d0
      = ((Debouncer.burst m d0.exec.1).1, d0.exec.2 :: (Debouncer.burst m d0.exec.1).2) := rfl
  rw [hb, he]
  simp only [h1x, h2]
  have hcalls : (Debouncer.windowElapse
      ⟨some (d0.nextId + 1), (if m = 0 then false else true), d0.nextId + 2,
        d0.funcCalls + 1, d0.nextId :: d0.settled⟩).funcCalls
      = d0.funcCalls + (if 2 ≤ m + 1 then 2 else 1) := by
    by_cases hm : m = 0
    · subst hm
      simp [Debouncer.windowElapse]
    · rw [if_neg hm, if_pos (by omega : 2 ≤ m + 1)]
      simp [Debouncer.windowElapse]
  refine ⟨by simp, hcalls, ?_, by simp, ?_⟩
  · rw [hcalls]
    split <;> omega
  · intro r hr
    rcases List.mem_cons.mp hr with h | h
    · subst h
      simp [Debouncer.windowElapse]
    · have hr2 := List.eq_of_mem_replicate h
      subst hr2
      simp [Debouncer.windowElapse]

/-- Fresh Debouncer fixture for the C2 witness. -/
def debW : Debouncer :=
  { debouncePromise := none, pending := false, nextId := 0, funcCalls := 0, settled := [] }

/-- Witness for C2 at a concrete burst of three calls. -/
theorem debouncer_burst_coalesce_w :
    1 ≤ 3 ∧ (Debouncer.burst 3 debW).1.funcCalls = debW.funcCalls + 1
    ∧ (Debouncer.burst 3 debW).2 = [0, 1, 1] :=
  ⟨by decide, (debouncer_burst_coalesce 3 debW rfl rfl (by decide)).1,
    (debouncer_burst_coalesce 3 debW rfl rfl (by decide)).2.2.2.1⟩

def permAddReactions : String := "addReactions"
def permReadMessageHistory : String := "readMessageHistory"
def permManageMessages : String := "manageMessages"

/-- State of a ReactionButtonsContext (src/reaction_buttons/index.ts).
Handler functions are opaque tags; the message is represented by its id. -/
structure Context where
  selfUserId : String
  msgId : String
  allowReactionsFrom : List String
  handlerFuncForReaction : List (String × String)
  timeoutMs : Nat
  disabled : Bool
  timeoutHandle : Option Nat
deriving DecidableEq, Repr

/-- The ReactionButtonsContext constructor: as in the source, disabled is
false and timeoutHandle is never assigned (it stays undefined). -/
def mkContext (selfUserId msgId : String) (allowReactionsFrom : List String)
    (handlerFuncForReaction : List (String × String)) (timeoutMs : Nat) : Context :=
  { selfUserId := selfUserId, msgId := msgId, allowReactionsFrom := allowReactionsFrom,
    handlerFuncForReaction := handlerFuncForReaction, timeoutMs := timeoutMs,
    disabled := false, timeoutHandle := none }

/-- The message's channel as seen through eris: guild flag and the permission
names held by a user id (permissionsOf). -/
structure Channel where
  guild : Bool
  perms : String → List String

/-- Outcome-valued capability standing for the eris message network surface;
each field gives the outcome of attempt i of the corresponding call. -/
structure Transport where
  addReactionAttempt : String → Nat → Except String Unit
  removeReactionAttempt : String → Nat → Except String Unit
  removeReactionsAttempt : Nat → Except String Unit

/-- Ambient setTimeout world: ids of scheduled, not yet fired timers, and the
next fresh handle id. -/
structure TimerWorld where
  scheduled : List Nat
  nextId : Nat
deriving DecidableEq, Repr

inductive CtxError where
  | permission (code : Nat)
  | transport (e : String)
deriving DecidableEq, Repr

/-- ReactionButtonsContext._canAddReactions: non-guild channels always allow;
guild channels require addReactions and readMessageHistory. -/
def canAddReactions (ctx : Context) (ch : Channel) : Bool :=
  if !ch.guild then true
  else
    (ch.perms ctx.selfUserId).contains permAddReactions
      && (ch.perms ctx.selfUserId).contains permReadMessageHistory

/-- ReactionButtonsContext._canRemoveOtherUserReactions. -/
def canRemoveOtherUserReactions (ctx : Context) (ch : Channel) : Bool :=
  ch.guild && (ch.perms ctx.selfUserId).contains permManageMessages

/-- The sequential addReaction loop of _initialize: one retryPromise-wrapped
addReaction per handler key, stopping at the first failure; returns the keys
attempted and the overall outcome. -/
def addReactionsLoop (t : Transport) : List String → List String × Except String Unit
  | [] => ([], Except.ok ())
  | r :: rs =>
    match retryPromise (t.addReactionAttempt r) 3 with
    | Except.error e => ([r], Except.error e)
    | Except.ok _ => (r :: (addReactionsLoop t rs).1, (addReactionsLoop t rs).2)

structure InitOut where
  world : TimerWorld
  timerId : Nat
  reactionsAttempted : List String
  result : Except CtxError Unit
deriving Repr

/-- ReactionButtonsContext._initialize: FIRST schedules the expiration
setTimeout (discarding the handle, exactly as the source does — it is never
stored into timeoutHandle), THEN checks permissions (error code 60013, before
any network call), then adds one reaction per handler key sequentially
through retryPromise. -/
def initContext (ctx : Context) (ch : Channel) (t : Transport) (w : TimerWorld) : InitOut :=
  let w2 : TimerWorld := { scheduled := w.scheduled ++ [w.nextId], nextId := w.nextId + 1 }
  if !(canAddReactions ctx ch) then
    { world := w2, timerId := w.nextId, reactionsAttempted := [],
      result := Except.error (CtxError.permission 60013) }
  else
    { world := w2, timerId := w.nextId,
      reactionsAttempted := (addReactionsLoop t (ctx.handlerFuncForReaction.map (fun p => p.1))).1,
      result :=
        match (addReactionsLoop t (ctx.handlerFuncForReaction.map (fun p => p.1))).2 with
        | Except.ok _ => Except.ok ()
        | Except.error e => Except.error (CtxError.transport e) }

/-- ReactionButtonsContext._handleMessageReaction: the pair is (handler tag
invoked, if any; JS return value with none standing for undefined). -/
def handleMessageReaction (ctx : Context) (emojiName userId : String) (_added : Bool) :
    Option String × Option Bool :=
  if ctx.disabled then (none, none)
  else if userId = ctx.selfUserId then (none, none)
  else if 0 < ctx.allowReactionsFrom.length ∧ ctx.allowReactionsFrom.contains userId = false then
    (none, none)
  else
    match lookupD ctx.handlerFuncForReaction emojiName with
    | none => (none, some false)
    | some h => (some h, some true)

inductive CancelEvent where
  | timerClear (h : Nat)
  | registryDrop (msgId : String)
  | netRemoveAll
  | netRemove (r : String)
deriving DecidableEq, Repr

def isNetworkEvent : CancelEvent → Bool
  | CancelEvent.netRemoveAll => true
  | CancelEvent.netRemove _ => true
  | _ => false

/-- The Promise.all over per-reaction removeReaction calls (each through
retryPromise); rejects when any of them rejects. -/
def allSettle (t : Transport) : List String → Except String Unit
  | [] => Except.ok ()
  | r :: rs =>
    match retryPromise (t.removeReactionAttempt r) 3 with
    | Except.error e => Except.error e
    | Except.ok _ => allSettle t rs

/-- ReactionButtonsContext.removeAllButtons: clears the handler table, then
either a bulk removeReactions (with manage-messages permission) or one
removeReaction per former key; returns the new context, the outcome, and the
network events attempted. -/
def removeAllButtons (ctx : Context) (ch : Channel) (t : Transport) :
    Context × Except String Unit × List CancelEvent :=
  let reactions := ctx.handlerFuncForReaction.map (fun p => p.1)
  let ctx2 : Context := { ctx with handlerFuncForReaction := [] }
  if canRemoveOtherUserReactions ctx ch then
    (ctx2,
     (match retryPromise t.removeReactionsAttempt 3 with
      | Except.ok _ => Except.ok ()
      | Except.error e => Except.error e),
     [CancelEvent.netRemoveAll])
  else
    (ctx2, allSettle t reactions, reactions.map CancelEvent.netRemove)

structure CancelOut where
  registry : List (String × Context)
  world : TimerWorld
  ctx : Context
  result : Except String Unit
  trace : List CancelEvent
deriving Repr

/-- ReactionButtonsContext.cancel: clearTimeout guarded on timeoutHandle,
then the synchronous observer._onCancel registry delete, then await
removeAllButtons whose outcome is returned unchanged (the source has no
try/catch here).  The trace lists the steps in execution order. -/
def cancel (ctx : Context) (ch : Channel) (registry : List (String × Context))
    (w : TimerWorld) (t : Transport) : CancelOut :=
  let cleared : TimerWorld × List CancelEvent :=
    match ctx.timeoutHandle with
    | some h => ({ w with scheduled := w.scheduled.erase h }, [CancelEvent.timerClear h])
    | none => (w, [])
  let registry2 := eraseD registry ctx.msgId
  let rab := removeAllButtons ctx ch t
  { registry := registry2, world := cleared.1, ctx := rab.1, result := rab.2.1,
    trace := cleared.2 ++ CancelEvent.registryDrop ctx.msgId :: rab.2.2 }

/-- ReactionButtonManager state. -/
structure RBManager where
  selfUserId : String
  expirationTimeInMs : Nat
  contextForMessageId : List (String × Context)
deriving Repr

inductive AddError where
  | duplicate
  | ctxInit (e : CtxError)
deriving DecidableEq, Repr

inductive AddEvent where
  | registryInsert (msgId : String)
  | initBegin
deriving DecidableEq, Repr

structure AddOut where
  manager : RBManager
  world : TimerWorld
  result : Except AddError Context
  events : List AddEvent
deriving Repr

/-- ReactionButtonManager.add: duplicate check, then Context construction,
then registry insertion, then _initialize — in that order (the events field
records the order: the insertion strictly precedes the start of
initialization, and a failed initialization leaves the context registered).
The options.expirationTimeInMs || this.expirationTimeInMs fallback treats 0
as absent, as JS || does. -/
def managerAdd (m : RBManager) (msgId : String) (allowReactionsFrom : List String)
    (handlerFuncForReaction : List (String × String)) (expOpt : Option Nat)
    (ch : Channel) (t : Transport) (w : TimerWorld) : AddOut :=
  if (lookupD m.contextForMessageId msgId).isSome then
    { manager := m, world := w, result := Except.error AddError.duplicate, events := [] }
  else
    let timeoutMs : Nat :=
      match expOpt with
      | some v => if v = 0 then m.expirationTimeInMs else v
      | none => m.expirationTimeInMs
    let ctx := mkContext m.selfUserId msgId allowReactionsFrom handlerFuncForReaction timeoutMs
    let m2 : RBManager := { m with contextForMessageId := insertD m.contextForMessageId msgId ctx }
    let io := initContext ctx ch t w
    { manager := m2, world := io.world,
      result :=
        match io.result with
        | Except.ok _ => Except.ok ctx
        | Except.error e => Except.error (AddError.ctxInit e),
      events := [AddEvent.registryInsert msgId, AddEvent.initBegin] }

/-! Concrete fixtures used by witnesses and counterexamples. -/

def botUser : String := "bot"
def msg1 : String := "m1"
def alice : String := "alice"
def bob : String := "bob"
def reactX : String := "x"
def handlerH : String := "h"
def netErr : String := "NetErr"

def tOk : Transport :=
  { addReactionAttempt := fun _ _ => Except.ok (),
    removeReactionAttempt := fun _ _ => Except.ok (),
    removeReactionsAttempt := fun _ => Except.ok () }

def tRemoveFails : Transport :=
  { addReactionAttempt := fun _ _ => Except.ok (),
    removeReactionAttempt := fun _ _ => Except.error netErr,
    removeReactionsAttempt := fun _ => Except.error netErr }

def dmChannel : Channel := { guild := false, perms := fun _ => [] }

def guildNoPerm : Channel := { guild := true, perms := fun _ => [] }

def ctx1 : Context := mkContext botUser msg1 [] [(reactX, handlerH)] 100

def ctxAllow : Context := mkContext botUser msg1 [alice] [(reactX, handlerH)] 100

def w0 : TimerWorld := { scheduled := [], nextId := 0 }

def mgr0 : RBManager :=
  { selfUserId := botUser, expirationTimeInMs := 120000, contextForMessageId := [] }

/-- C1: at most one Context per message id.  With a context already
registered, add fails with the duplicate error and leaves the manager — and
in particular the original registered context — untouched.  With none
registered, the registry insertion event strictly precedes the
initialization-begin event, the new context is registered in the resulting
registry (which is exactly the registry in force while initialization is in
flight, since initialization never touches it), and a second add against that
in-flight registry is rejected as a duplicate. -/
theorem manager_add_unique (m : RBManager) (msgId : String) (allow : List String)
    (hs : List (String × String)) (expOpt : Option Nat) (ch : Channel) (t : Transport)
    (w : TimerWorld) :
    (∀ c, lookupD m.contextForMessageId msgId = some c →
      (managerAdd m msgId allow hs expOpt ch t w).result = Except.error AddError.duplicate
      ∧ (managerAdd m msgId allow hs expOpt ch t w).manager = m
      ∧ lookupD (managerAdd m msgId allow hs expOpt ch t w).manager.contextForMessageId msgId
          = some c)
    ∧ (lookupD m.contextForMessageId msgId = none →
      (managerAdd m msgId allow hs expOpt ch t w).events
        = [AddEvent.registryInsert msgId, AddEvent.initBegin]
      ∧ (lookupD (managerAdd m msgId allow hs expOpt ch t w).manager.contextForMessageId
          msgId).isSome = true
      ∧ (managerAdd (managerAdd m msgId allow hs expOpt ch t w).manager
          msgId allow hs expOpt ch t w).result = Except.error AddError.duplicate) := by
  constructor
  · intro c hc
    refine ⟨?_, ?_, ?_⟩ <;> simp [managerAdd, hc]
  · intro hn
    refine ⟨?_, ?_, ?_⟩ <;> simp [managerAdd, hn, lookupD_insertD_self]

/-- Witness for C1: an empty manager accepts a registration, and a second
add for the same message id is rejected while the first is registered. -/
theorem manager_add_unique_w :
    lookupD mgr0.contextForMessageId msg1 = none
    ∧ (managerAdd (managerAdd mgr0 msg1 [] [(reactX, handlerH)] none dmChannel tOk w0).manager
        msg1 [] [(reactX, handlerH)] none dmChannel tOk w0).result
        = Except.error AddError.duplicate :=
  ⟨rfl, ((manager_add_unique mgr0 msg1 [] [(reactX, handlerH)] none dmChannel tOk w0).2
      rfl).2.2⟩

/-- C5 counterexample: the claim says cancel() never propagates an error
from best-effort button removal; but with the underlying removeReaction
failing on every retry attempt, cancel() itself rejects with that error. -/
theorem cancel_throws_cx :
    (cancel ctx1 dmChannel [(msg1, ctx1)] w0 tRemoveFails).result = Except.error netErr := rfl

/-- C5 amended: cancel() catches nothing — its outcome is exactly the
outcome of removeAllButtons, so a removal error (including failure after all
retries) propagates to cancel()'s caller, while the timer-clear guard and the
registry notification have already run. -/
theorem cancel_propagates_removal_error (ctx : Context) (ch : Channel)
    (registry : List (String × Context)) (w : TimerWorld) (t : Transport) :
    (cancel ctx ch registry w t).result = (removeAllButtons ctx ch t).2.1 := by
  cases h : ctx.timeoutHandle <;> simp [cancel, h]

/-- C6 evaluation at the failing input: after the constructor and
_initialize, the context's timeoutHandle is still none (the source never
assigns the setTimeout handle to it), so the expiration timer scheduled by
_initialize (handle 0) is STILL scheduled after cancel() — clearTimeout is
never reached and the timer will still fire later. -/
theorem cancel_timer_dangling_eval :
    ctx1.timeoutHandle = none
    ∧ (initContext ctx1 dmChannel tOk w0).world.scheduled = [0]
    ∧ (cancel ctx1 dmChannel [(msg1, ctx1)]
        (initContext ctx1 dmChannel tOk w0).world tOk).world.scheduled = [0] :=
  ⟨rfl, rfl, rfl⟩

/-- C7 counterexample: on a guild channel without reaction permissions,
_initialize raises the permission error (code 60013) having attempted no
network call, BUT an expiration timer has been scheduled (the setTimeout
runs before the permission check), contradicting the claim's "no observable
state change, including no scheduled expiration timer". -/
theorem init_schedules_timer_cx :
    (initContext ctx1 guildNoPerm tOk w0).result = Except.error (CtxError.permission 60013)
    ∧ (initContext ctx1 guildNoPerm tOk w0).reactionsAttempted = []
    ∧ (initContext ctx1 guildNoPerm tOk w0).world.scheduled = [0] :=
  ⟨rfl, rfl, rfl⟩

/-- C7 amended: whenever the permission check fails, _initialize fails with
the PermissionError (code 60013) before any network call — no reaction add is
ever attempted — but it is not free of side effects: the expiration timer has
already been scheduled. -/
theorem init_permission_failfast (ctx : Context) (ch : Channel) (t : Transport)
    (w : TimerWorld) (h : canAddReactions ctx ch = false) :
    (initContext ctx ch t w).result = Except.error (CtxError.permission 60013)
    ∧ (initContext ctx ch t w).reactionsAttempted = []
    ∧ (initContext ctx ch t w).world.scheduled = w.scheduled ++ [w.nextId] := by
  refine ⟨?_, ?_, ?_⟩ <;> simp [initContext, h]

/-- Witness for C7's amended theorem at a concrete permissionless guild
channel. -/
theorem init_permission_failfast_w :
    canAddReactions ctx1 guildNoPerm = false
    ∧ (initContext ctx1 guildNoPerm tOk w0).result = Except.error (CtxError.permission 60013) :=
  ⟨rfl, (init_permission_failfast ctx1 guildNoPerm tOk w0 rfl).1⟩

/-- C8: _handleMessageReaction ignores the event (no handler invoked,
undefined returned) when the context is disabled, when the reactor is the
bot itself, or when a non-empty allow-list does not contain the reactor;
otherwise it invokes the handler bound to the emoji's name when one exists
and returns whether a handler existed. -/
theorem handle_reaction_dispatch (ctx : Context) (e u : String) (a : Bool) :
    (ctx.disabled = true → handleMessageReaction ctx e u a = (none, none))
    ∧ (u = ctx.selfUserId → handleMessageReaction ctx e u a = (none, none))
    ∧ (ctx.allowReactionsFrom ≠ [] → ctx.allowReactionsFrom.contains u = false →
        handleMessageReaction ctx e u a = (none, none))
    ∧ (ctx.disabled = false → u ≠ ctx.selfUserId →
        (ctx.allowReactionsFrom = [] ∨ ctx.allowReactionsFrom.contains u = true) →
        handleMessageReaction ctx e u a
          = (lookupD ctx.handlerFuncForReaction e,
             some (lookupD ctx.handlerFuncForReaction e).isSome)) := by
  refine ⟨?_, ?_, ?_, ?_⟩
  · intro h
    simp [handleMessageReaction, h]
  · intro h
    by_cases hd : ctx.disabled <;> simp [handleMessageReaction, hd, h]
  · intro h1 h2
    by_cases hd : ctx.disabled
    · simp [handleMessageReaction, hd]
    · by_cases hu : u = ctx.selfUserId
      · simp [handleMessageReaction, hd, hu]
      · simp [handleMessageReaction, hd, hu, List.length_pos, h1]
        intro hmem
        exact absurd hmem (by simpa using h2)
  · intro hd hu hal
    have hcond : ¬(0 < ctx.allowReactionsFrom.length
        ∧ ctx.allowReactionsFrom.contains u = false) := by
      rcases hal with h | h
      · simp [h]
      · rintro ⟨-, hc2⟩
        rw [h] at hc2
        exact Bool.noConfusion hc2
    have hmem2 : 0 < ctx.allowReactionsFrom.length → u ∈ ctx.allowReactionsFrom := by
      intro hlen
      rcases hal with h | h
      · rw [h] at hlen
        exact absurd hlen (by simp)
      · simpa using h
    cases hl : lookupD ctx.handlerFuncForReaction e <;>
      simp [handleMessageReaction, hd, hu, hcond, hl] <;> exact hmem2

/-- Witness for C8: a context with allow-list [alice]; bob's reaction is
dropped, alice's reaction invokes the registered handler and returns true. -/
theorem handle_reaction_dispatch_w :
    handleMessageReaction ctxAllow reactX bob true = (none, none)
    ∧ handleMessageReaction ctxAllow reactX alice true = (some handlerH, some true) := by
  constructor
  · exact (handle_reaction_dispatch ctxAllow reactX bob true).2.2.1 (by decide) (by decide)
  · exact (handle_reaction_dispatch ctxAllow reactX alice true).2.2.2 rfl (by decide)
      (Or.inr (by decide))

/-- C10: cancel() drops the registry entry for the context's message id
synchronously: the resulting registry no longer maps the id — whatever the
removal outcome, since the result plays no part in the registry update — and
in the execution trace the registry drop precedes every network removal
operation (only the clearTimeout guard can come before it). -/
theorem cancel_registry_drop_first (ctx : Context) (ch : Channel)
    (registry : List (String × Context)) (w : TimerWorld) (t : Transport) :
    lookupD (cancel ctx ch registry w t).registry ctx.msgId = none
    ∧ ∃ pre post, (cancel ctx ch registry w t).trace
        = pre ++ CancelEvent.registryDrop ctx.msgId :: post
        ∧ ∀ e ∈ pre, isNetworkEvent e = false := by
  constructor
  · simp [cancel, lookupD_eraseD_self]
  · cases h : ctx.timeoutHandle with
    | none =>
      refine ⟨[], (removeAllButtons ctx ch t).2.2, ?_, by simp⟩
      simp [cancel, h]
    | some hdl =>
      refine ⟨[CancelEvent.timerClear hdl], (removeAllButtons ctx ch t).2.2, ?_, ?_⟩
      · simp [cancel, h]
      · intro e he
        simp only [List.mem_singleton] at he
        subst he
        rfl

def maxSafeInteger : Int := 9007199254740991

/-- Mutable state of a PageController.  Page content is a string; a page
with no content (undefined / empty) is none.  The outer pageCache dictionary
maps a track emoji to that track's page cache — an entry that may be ABSENT,
exactly as in the source, where the constructor never creates the per-emoji
cache objects. -/
structure PCState where
  pageCache : List (String × List (Int × Option String))
  maxPageForEmoji : List (String × Int)
  currentPageNum : Int
  currentEmoji : String
  lastSentEmoji : String
  lastSentPageNum : Int
deriving DecidableEq, Repr

/-- The PageController constructor: pageCache stays the empty object, every
track's max page starts at Number.MAX_SAFE_INTEGER, the current and last-sent
emoji are the first key of the page-source dictionary. -/
def mkPageController (emojis : List String) : PCState :=
  { pageCache := [],
    maxPageForEmoji := emojis.map (fun e => (e, maxSafeInteger)),
    currentPageNum := 0,
    currentEmoji := emojis.headD "",
    lastSentEmoji := emojis.headD "",
    lastSentPageNum := 0 }

inductive PageError where
  | typeError
  | failedFirstPage
deriving DecidableEq, Repr

/-- The two clamps at the top of _coerceAndCachePage; an absent max entry
(undefined) never clamps, as JS comparison with undefined is false. -/
def clampPage (maxPage : Option Int) (pageNum : Int) : Int :=
  let n1 := if pageNum < 0 then 0 else pageNum
  match maxPage with
  | some m => if n1 > m then m else n1
  | none => n1

structure WalkOut where
  pageNum : Int
  page : Option String
  maxUpd : Option Int
  fetched : List Int
deriving DecidableEq, Repr

/-- The while (!page && --pageNum >= 0) loop of _coerceAndCachePage: starting
from the already-fetched page at pageNum, walk backward fetching each index,
recording in maxUpd the index whose fetch yielded content (the loop's
assignment to maxPageForEmoji), and in fetched the indices fetched inside the
loop.  Note the loop's final decrement survives the exit: when no content is
found the loop leaves pageNum one BELOW the last index tried.  The fuel
pageNum.toNat + 1 always suffices since each iteration decreases pageNum. -/
def coerceWalk (getPage : Int → Option String) :
    Nat → Int → Option String → Option Int → WalkOut
  | 0, pageNum, page, maxUpd => { pageNum := pageNum, page := page, maxUpd := maxUpd, fetched := [] }
  | fuel + 1, pageNum, page, maxUpd =>
    match page with
    | some s => { pageNum := pageNum, page := some s, maxUpd := maxUpd, fetched := [] }
    | none =>
      if pageNum - 1 < 0 then
        { pageNum := pageNum - 1, page := none, maxUpd := maxUpd, fetched := [] }
      else
        let pg := getPage (pageNum - 1)
        let r := coerceWalk getPage fuel (pageNum - 1) pg
          (if pg.isSome then some (pageNum - 1) else maxUpd)
        { pageNum := r.pageNum, page := r.page, maxUpd := r.maxUpd,
          fetched := (pageNum - 1) :: r.fetched }

structure CoerceOut where
  result : Except PageError Int
  state : PCState
  fetched : List Int
deriving Repr

def applyMaxUpd (mp : List (String × Int)) (e : String) : Option Int → List (String × Int)
  | none => mp
  | some m => insertD mp e m

/-- PageController._coerceAndCachePage.  Mirrors the source line by line:
clamp into [0, maxPageForEmoji[currentEmoji]]; read the per-emoji cache
object — if that object is ABSENT the subsequent indexing of it is a JS
TypeError (modelled as the typeError result, state unchanged); a truthy
cached entry is returned as-is; otherwise fetch, walk backward, apply the
loop's max-bound update, raise the failed-first-page error only when the
walk ends with no content AND pageNum equals 0, and finally store whatever
page value resulted under the final index.  fetched lists every index handed
to the page source, in order. -/
def coerceAndCachePage (pageSourceForEmoji : List (String × (Int → Option String)))
    (s : PCState) (pageNum : Int) : CoerceOut :=
  let n2 := clampPage (lookupD s.maxPageForEmoji s.currentEmoji) pageNum
  match lookupD s.pageCache s.currentEmoji with
  | none => { result := Except.error PageError.typeError, state := s, fetched := [] }
  | some cacheForCurrentEmoji =>
    if ((lookupD cacheForCurrentEmoji n2).join).isSome then
      { result := Except.ok n2, state := s, fetched := [] }
    else
      match lookupD pageSourceForEmoji s.currentEmoji with
      | none => { result := Except.error PageError.typeError, state := s, fetched := [] }
      | some getPage =>
        let w := coerceWalk getPage (n2.toNat + 1) n2 (getPage n2) none
        if w.page.isNone ∧ w.pageNum = 0 then
          { result := Except.error PageError.failedFirstPage,
            state := { s with
              maxPageForEmoji := applyMaxUpd s.maxPageForEmoji s.currentEmoji w.maxUpd },
            fetched := n2 :: w.fetched }
        else
          { result := Except.ok w.pageNum,
            state := { s with
              pageCache := insertD s.pageCache s.currentEmoji
                (insertD cacheForCurrentEmoji w.pageNum w.page),
              maxPageForEmoji := applyMaxUpd s.maxPageForEmoji s.currentEmoji w.maxUpd },
            fetched := n2 :: w.fetched }

/-- PageController._getCurrentPage: the double indexing throws when the
per-emoji cache object is absent. -/
def getCurrentPage (s : PCState) : Except PageError (Option String) :=
  match lookupD s.pageCache s.currentEmoji with
  | none => Except.error PageError.typeError
  | some inner => Except.ok ((lookupD inner s.currentPageNum).join)

inductive EditError where
  | assertNoMessage
  | typeError
  | transport (e : String)
deriving DecidableEq, Repr

structure EditOut where
  result : Except EditError Unit
  state : PCState
  edited : Option (Option String)
deriving Repr

/-- PageController._editWithCurrentState: assert a message exists; return
unchanged when current (track, index) equals the last sent pair; otherwise
update the last-sent pair, read the cached current page and edit the message
through retryPromise (per-attempt outcome editAttempt).  edited records the
content sent when an edit was issued and completed. -/
def editWithCurrentState (s : PCState) (hasMessage : Bool)
    (editAttempt : Nat → Except String Unit) : EditOut :=
  if !hasMessage then { result := Except.error EditError.assertNoMessage, state := s, edited := none }
  else if s.currentEmoji = s.lastSentEmoji ∧ s.currentPageNum = s.lastSentPageNum then
    { result := Except.ok (), state := s, edited := none }
  else
    let s2 : PCState :=
      { s with lastSentEmoji := s.currentEmoji, lastSentPageNum := s.currentPageNum }
    match getCurrentPage s2 with
    | Except.error _ => { result := Except.error EditError.typeError, state := s2, edited := none }
    | Except.ok content =>
      match retryPromise editAttempt 3 with
      | Except.ok _ => { result := Except.ok (), state := s2, edited := some content }
      | Except.error e => { result := Except.error (EditError.transport e), state := s2, edited := none }

structure MoveOut where
  state : PCState
  debounced : Bool
deriving Repr

/-- PageController._movePageNum: coerce current + distance; when the result
equals the current index return undefined without touching the debouncer;
otherwise update the current index and invoke _editDebouncer.exec()
(debounced records that invocation). -/
def movePageNum (pageSourceForEmoji : List (String × (Int → Option String)))
    (s : PCState) (distance : Int) : Except PageError MoveOut :=
  let co := coerceAndCachePage pageSourceForEmoji s (s.currentPageNum + distance)
  match co.result with
  | Except.error e => Except.error e
  | Except.ok newPageNum =>
    if newPageNum = s.currentPageNum then Except.ok { state := co.state, debounced := false }
    else Except.ok { state := { co.state with currentPageNum := newPageNum }, debounced := true }

def emptyTrack : String := ""
def pageContent : String := "page"

/-- Page source with content at indices 0..4 and nothing at any other index. -/
def src5 : Int → Option String := fun i => if 0 ≤ i ∧ i ≤ 4 then some pageContent else none

def srcDict : List (String × (Int → Option String)) := [(emptyTrack, src5)]

/-- Page source yielding no content at every index. -/
def srcEmptyDict : List (String × (Int → Option String)) := [(emptyTrack, fun _ => none)]

/-- PCState as the pagination claims presuppose: the single track's cache
object exists and is empty, its max bound is still MAX_SAFE_INTEGER. -/
def pcWithCache : PCState :=
  { pageCache := [(emptyTrack, [])], maxPageForEmoji := [(emptyTrack, maxSafeInteger)],
    currentPageNum := 0, currentEmoji := emptyTrack, lastSentEmoji := emptyTrack,
    lastSentPageNum := 0 }

/-- C3 evaluation.  First conjunct: on the state the constructor actually
produces (no per-track cache object), _coerceAndCachePage(10) is a JS
TypeError, not the claimed result 4 — the code bug.  Remaining conjuncts:
once the per-track cache object exists (the clear intent of the code, which
writes into it), the requested index 10 resolves to 4, page 4 is cached, the
track's max bound becomes 4, and a later request for 7 returns 4 from the
cache with no further page fetch. -/
theorem page_bound_discovery_eval :
    (coerceAndCachePage srcDict (mkPageController [emptyTrack]) 10).result
        = Except.error PageError.typeError
    ∧ (coerceAndCachePage srcDict pcWithCache 10).result = Except.ok 4
    ∧ (coerceAndCachePage srcDict pcWithCache 10).state.pageCache
        = [(emptyTrack, [(4, some pageContent)])]
    ∧ (coerceAndCachePage srcDict pcWithCache 10).state.maxPageForEmoji = [(emptyTrack, 4)]
    ∧ (coerceAndCachePage srcDict (coerceAndCachePage srcDict pcWithCache 10).state 7).result
        = Except.ok 4
    ∧ (coerceAndCachePage srcDict (coerceAndCachePage srcDict pcWithCache 10).state 7).fetched
        = [] :=
  ⟨rfl, rfl, rfl, rfl, rfl, rfl⟩

/-- C4 evaluation at the failing input: a source with no content at any
index, from a state whose per-track cache object exists and is empty.  The
claim (and the source's own dead throw) say an error must be raised; instead
the loop decrements pageNum to -1 before the (pageNum === 0) guard, so the
call returns NORMALLY with -1, the empty page is cached under index -1, and
the max bound is never tightened. -/
theorem empty_content_bug_eval :
    (coerceAndCachePage srcEmptyDict pcWithCache 0).result = Except.ok (-1)
    ∧ (coerceAndCachePage srcEmptyDict pcWithCache 2).result = Except.ok (-1)
    ∧ (coerceAndCachePage srcEmptyDict pcWithCache 0).state.pageCache
        = [(emptyTrack, [(-1, (none : Option String))])] :=
  ⟨rfl, rfl, rfl⟩

theorem clampPage_self (maxPage : Option Int) (n : Int) (h0 : 0 ≤ n)
    (hm : ∀ m, maxPage = some m → n ≤ m) : clampPage maxPage n = n := by
  have hlt : ¬n < 0 := by omega
  cases maxPage with
  | none => simp [clampPage, hlt]
  | some m =>
    have hnm := hm m rfl
    simp only [clampPage, if_neg hlt]
    rw [if_neg (by omega)]

/-- C9: redundant edits are suppressed.  First conjunct: from any state
whose current page is validly cached (current index within bounds and
present, truthy, in the track's cache — the controller's own invariant),
_movePageNum(0) resolves to the unchanged current index and returns
undefined without invoking the edit debouncer, leaving the state untouched.
Second conjunct: _editWithCurrentState is a no-op — no network edit, state
unchanged — whenever the current (track, index) pair equals the last
successfully sent pair. -/
theorem move_zero_edit_idempotent (src : List (String × (Int → Option String)))
    (s : PCState) (inner : List (Int × Option String)) (c : String)
    (hcache : lookupD s.pageCache s.currentEmoji = some inner)
    (hpage : lookupD inner s.currentPageNum = some (some c))
    (hge : 0 ≤ s.currentPageNum)
    (hmax : ∀ m, lookupD s.maxPageForEmoji s.currentEmoji = some m → s.currentPageNum ≤ m) :
    movePageNum src s 0 = Except.ok { state := s, debounced := false }
    ∧ (∀ (s2 : PCState) (att : Nat → Except String Unit),
        s2.currentEmoji = s2.lastSentEmoji → s2.currentPageNum = s2.lastSentPageNum →
        editWithCurrentState s2 true att
          = { result := Except.ok (), state := s2, edited := none }) := by
  constructor
  · have hc : clampPage (lookupD s.maxPageForEmoji s.currentEmoji) s.currentPageNum
        = s.currentPageNum := clampPage_self _ _ hge hmax
    simp [movePageNum, coerceAndCachePage, Int.add_zero, hc, hcache, hpage]
  · intro s2 att h1 h2
    simp [editWithCurrentState, h1, h2]

/-- State fixture for the C9 witness: single track, page 0 cached, bound 5. -/
def pcCached : PCState :=
  { pageCache := [(emptyTrack, [((0 : Int), some pageContent)])],
    maxPageForEmoji := [(emptyTrack, 5)],
    currentPageNum := 0, currentEmoji := emptyTrack, lastSentEmoji := emptyTrack,
    lastSentPageNum := 0 }

/-- Witness for C9 at the concrete cached state. -/
theorem move_zero_edit_idempotent_w :
    movePageNum srcDict pcCached 0 = Except.ok { state := pcCached, debounced := false } :=
  (move_zero_edit_idempotent srcDict pcCached [((0 : Int), some pageContent)] pageContent
    rfl rfl (by decide)
    (fun m hm => by
      have h5 : lookupD pcCached.maxPageForEmoji pcCached.currentEmoji = some 5 := rfl
      rw [h5] at hm
      injection hm with hm2
      show (0 : Int) ≤ m
      omega)).1

end Erex
